import Mathlib

/-!
Verification of the text-to-speech HTTP service (Express + OpenAI TTS).

Shallow embedding of:
- `src/modules/text-to-speech/textToSpeech.dto.ts` (express-validator chain),
- `src/middleware/validationMiddleware.ts`,
- `src/modules/text-to-speech/textToSpeech.service.ts`,
- `src/modules/text-to-speech/textToSpeech.controller.ts`,
- the route pipeline `src/modules/text-to-speech/textToSpeech.routes.ts`.

External effects (the OpenAI provider call, the uuid draw, the filesystem
write, the `res.download` stream send) are modelled by an explicit
per-request environment `Env`; the handler returns the emitted HTTP
responses together with traces of provider invocations, file writes and
download attempts.
-/

namespace TTS

/-- The JavaScript value found at `req.body.text`: absent, present but not a
string (carrying its validator.js string coercion), or a string. -/
inductive TextField where
  | missing : TextField
  | nonString (coerced : String) : TextField
  | str (s : String) : TextField
deriving DecidableEq, Repr

/-- validator.js string coercion applied by standard validators such as
`isLength`: `undefined`/`null` become `""`, other values their string form. -/
def jsToString : TextField → String
  | TextField.missing => ""
  | TextField.nonString c => c
  | TextField.str s => s

/-- The `.isString()` check of the validation chain: true exactly when the
field is present with a string value. -/
def isStringField : TextField → Bool
  | TextField.str _ => true
  | _ => false

/-- Error message attached to `.isString()` in `textToSpeech.dto.ts`. -/
def msgNotString : String := "Text must be a string"

/-- Error message attached to `.isLength(\x7b min: 1 \x7d)`. -/
def msgEmpty : String := "Text must not be empty"

/-- Error message attached to `.isLength(\x7b max: 500 \x7d)`. -/
def msgTooLong : String := "Text must not exceed 500 characters"

/-- The validation chain `textToSpeechDto` of `textToSpeech.dto.ts`:
`body('text').isString().isLength(min 1).isLength(max 500)`, each failing
validator contributing its `withMessage` text; without `.bail()`,
express-validator runs every validator of the chain and accumulates all
failures in order. -/
def textToSpeechDto (tf : TextField) : List String :=
  (if isStringField tf then [] else [msgNotString]) ++
  (if 1 ≤ (jsToString tf).length then [] else [msgEmpty]) ++
  (if (jsToString tf).length ≤ 500 then [] else [msgTooLong])

/-- Bodies of the HTTP responses the pipeline can emit. -/
inductive ResponseBody where
  | errorsJson (errs : List String) : ResponseBody
  | errorJson (msg : String) : ResponseBody
  | textBody (msg : String) : ResponseBody
  | fileDownload (filePath fileName : String) (bytes : List Nat) : ResponseBody
deriving DecidableEq, Repr

/-- An emitted HTTP response: status code and body. -/
structure HttpResponse where
  status : Nat
  body : ResponseBody
deriving DecidableEq, Repr

/-- Arguments of one call to `openai.audio.speech.create`. -/
structure SpeechCreateArgs where
  model : String
  voice : String
  input : String
deriving DecidableEq, Repr

/-- Outcome of the external provider call for this request: resolve with
audio bytes, or reject. -/
inductive ProviderBehavior where
  | succeed (bytes : List Nat) : ProviderBehavior
  | fail : ProviderBehavior
deriving DecidableEq, Repr

/-- Per-request external environment: the provider outcome, the uuid drawn
by `uuidv4()`, the temp directory `path.join(__dirname, '../../../temp')`,
and whether the file write / the download stream fail. -/
structure Env where
  provider : ProviderBehavior
  uuid : String
  tempDir : String
  writeFails : Bool
  downloadFails : Bool
deriving DecidableEq, Repr

/-- The file name generated by the service: `uuidv4() + ".mp3"`. -/
def generatedFileName (env : Env) : String := env.uuid ++ ".mp3"

/-- Result of `TextToSpeechService.convertTextToSpeech`: the promise outcome
(rejection or resolved file path) plus the traces of provider invocations
and file writes it performed. -/
structure ServiceResult where
  result : Except Unit String
  providerCalls : List SpeechCreateArgs
  fileWrites : List (String × List Nat)
deriving Repr

/-- `TextToSpeechService.convertTextToSpeech` of `textToSpeech.service.ts`:
call `openai.audio.speech.create` with model `"tts-1-hd"`, voice `"alloy"`
and the given input text; on success generate `uuidv4() + ".mp3"`, join it
to the temp directory, write the bytes there and resolve with the path.
Provider rejection or write failure rejects the promise. -/
def serviceConvertTextToSpeech (env : Env) (text : String) : ServiceResult :=
  let call : SpeechCreateArgs := ⟨"tts-1-hd", "alloy", text⟩
  match env.provider with
  | ProviderBehavior.fail => ⟨Except.error (), [call], []⟩
  | ProviderBehavior.succeed bytes =>
      let fileName := generatedFileName env
      let filePath := env.tempDir ++ "/" ++ fileName
      if env.writeFails then ⟨Except.error (), [call], []⟩
      else ⟨Except.ok filePath, [call], [(filePath, bytes)]⟩

/-- JavaScript `String.prototype.split` with a one-character separator,
on the character list: split at every occurrence, keeping empty pieces. -/
def splitCharAux (sep : Char) : List Char → List Char → List (List Char)
  | [], acc => [acc.reverse]
  | c :: cs, acc =>
      if c = sep then acc.reverse :: splitCharAux sep cs []
      else splitCharAux sep cs (c :: acc)

/-- JavaScript `s.split(sep)` for a single-character separator. -/
def jsSplit (sep : Char) (s : String) : List String :=
  (splitCharAux sep s.data []).map (fun l => String.mk l)

/-- The controller's file-name derivation `filePath.split('/').pop()`,
with `none` for the falsy results (empty array or empty last segment) on
which the `|| 'output.mp3'` fallback fires. -/
def derivedFileName (filePath : String) : Option String :=
  match (jsSplit '/' filePath).getLast? with
  | some seg => if seg = "" then none else some seg
  | none => none

/-- The controller's `fileName` binding:
`filePath.split('/').pop() || 'output.mp3'`. -/
def advertisedFileName (filePath : String) : String :=
  (derivedFileName filePath).getD "output.mp3"

/-- Observable outcome of handling one request: the HTTP responses emitted
(in order) and the traces of provider calls, file writes and `res.download`
attempts. -/
structure RequestOutcome where
  responses : List HttpResponse
  providerCalls : List SpeechCreateArgs
  fileWrites : List (String × List Nat)
  downloadCalls : List (String × String)
deriving DecidableEq, Repr

/-- `TextToSpeechController.convertTextToSpeech` of
`textToSpeech.controller.ts`: await the service; on rejection the catch
block answers `500 \x7b error: 'Error converting text to audio' \x7d`; on
success derive the advertised file name and call
`res.download(filePath, fileName, cb)`, whose error callback answers
`500` with the text `'Error generating the audio file'`. -/
def controllerConvertTextToSpeech (env : Env) (text : String) : RequestOutcome :=
  let sr := serviceConvertTextToSpeech env text
  match sr.result with
  | Except.error _ =>
      ⟨[⟨500, ResponseBody.errorJson "Error converting text to audio"⟩],
        sr.providerCalls, sr.fileWrites, []⟩
  | Except.ok filePath =>
      let fileName := advertisedFileName filePath
      if env.downloadFails then
        ⟨[⟨500, ResponseBody.textBody "Error generating the audio file"⟩],
          sr.providerCalls, sr.fileWrites, [(filePath, fileName)]⟩
      else
        ⟨[⟨200, ResponseBody.fileDownload filePath fileName
              ((sr.fileWrites.lookup filePath).getD [])⟩],
          sr.providerCalls, sr.fileWrites, [(filePath, fileName)]⟩

/-- The `POST /convert` pipeline of `textToSpeech.routes.ts`: run the
`textToSpeechDto` chain, then `validationMiddleware` (a `400` with the
accumulated errors array when any validator failed, otherwise `next()`
into the controller, which destructures `text` from the body). The
`jsToString` coercion is only reached when validation passed, where the
field is a genuine string. -/
def handleConvert (env : Env) (tf : TextField) : RequestOutcome :=
  let errs := textToSpeechDto tf
  if errs.isEmpty then
    controllerConvertTextToSpeech env (jsToString tf)
  else
    ⟨[⟨400, ResponseBody.errorsJson errs⟩], [], [], []⟩

/-- Characters that may occur in a version-4 uuid as printed by `uuidv4()`:
lowercase hex digits and the hyphen. -/
def isUuidChar (c : Char) : Bool :=
  c.isDigit || (('a' ≤ c) && (c ≤ 'f')) || c = '-'

/-- Shape of a `uuidv4()` result: 36 characters drawn from lowercase hex
digits and hyphens. -/
def uuidV4Format (s : String) : Bool :=
  s.length = 36 && s.data.all isUuidChar

/-! Helper lemmas about the split/pop file-name derivation and string data. -/

theorem splitCharAux_ne_nil (sep : Char) (cs : List Char) (acc : List Char) :
    splitCharAux sep cs acc ≠ [] := by
  induction cs generalizing acc with
  | nil => simp [splitCharAux]
  | cons c cs ih =>
    simp only [splitCharAux]
    split
    · simp
    · exact ih _

theorem splitCharAux_no_sep (sep : Char) (cs : List Char) (hcs : sep ∉ cs) :
    ∀ acc : List Char, splitCharAux sep cs acc = [acc.reverse ++ cs] := by
  induction cs with
  | nil => intro acc; simp [splitCharAux]
  | cons c cs ih =>
    intro acc
    have hc : ¬ c = sep := fun hc => hcs (by simp [hc])
    have hcs' : sep ∉ cs := fun hm => hcs (List.mem_cons_of_mem _ hm)
    simp only [splitCharAux, if_neg hc, ih hcs']
    simp

theorem getLast?_cons_of_ne_nil {α : Type} (x : α) (l : List α) (h : l ≠ []) :
    (x :: l).getLast? = l.getLast? := by
  cases l with
  | nil => exact absurd rfl h
  | cons y ys => rfl

theorem getLast?_splitCharAux_append (sep : Char) (b : List Char) (hb : sep ∉ b) :
    ∀ (a acc : List Char), (splitCharAux sep (a ++ sep :: b) acc).getLast? = some b := by
  intro a
  induction a with
  | nil =>
    intro acc
    simp only [List.nil_append, splitCharAux, if_pos rfl]
    rw [splitCharAux_no_sep sep b hb []]
    rfl
  | cons c a ih =>
    intro acc
    simp only [List.cons_append, splitCharAux]
    split
    · rw [getLast?_cons_of_ne_nil _ _ (splitCharAux_ne_nil sep _ _)]
      exact ih []
    · exact ih _

theorem data_append (a b : String) : (a ++ b).data = a.data ++ b.data :=
  String.data_append a b

theorem derivedFileName_join (d f : String) (hf : '/' ∉ f.data) (hne : f ≠ "") :
    derivedFileName (d ++ "/" ++ f) = some f := by
  have hdata : (d ++ "/" ++ f).data = d.data ++ '/' :: f.data := by
    rw [data_append, data_append]
    simp
  have hlast : (splitCharAux '/' (d ++ "/" ++ f).data []).getLast? = some f.data := by
    rw [hdata]
    exact getLast?_splitCharAux_append '/' f.data hf d.data []
  have hmap : (jsSplit '/' (d ++ "/" ++ f)).getLast? = some f := by
    unfold jsSplit
    rw [List.getLast?_map, hlast]
    rfl
  unfold derivedFileName
  rw [hmap]
  simp [hne]

theorem mp3_no_slash (u : String) (hu : uuidV4Format u = true) :
    '/' ∉ (u ++ ".mp3").data := by
  intro hmem
  rw [data_append] at hmem
  rcases List.mem_append.mp hmem with h | h
  · have hall : u.data.all isUuidChar = true :=
      (Bool.and_eq_true _ _ |>.mp hu).2
    have := List.all_eq_true.mp hall _ h
    simp [isUuidChar] at this
  · simp at h

theorem mp3_ne_empty (u : String) : u ++ ".mp3" ≠ "" := by
  intro h
  have : (u ++ ".mp3").data = [] := by rw [h]
  rw [data_append] at this
  simp at this

/-! The claims. -/

/-- C1: for every request whose `text` field is a string of length between 1
and 500, the pipeline invokes the external synthesis capability exactly once,
with exactly that text, with the fixed model `"tts-1-hd"` and the fixed voice
`"alloy"`, whatever the provider, write and download outcomes. -/
theorem C1_valid_text_invokes_provider_once (env : Env) (s : String)
    (h1 : 1 ≤ s.length) (h2 : s.length ≤ 500) :
    (handleConvert env (TextField.str s)).providerCalls =
      [⟨"tts-1-hd", "alloy", s⟩] := by
  have herrs : textToSpeechDto (TextField.str s) = [] := by
    simp [textToSpeechDto, isStringField, jsToString, h1, h2]
  obtain ⟨prov, uuid, tmp, wf, df⟩ := env
  cases prov <;> cases wf <;> cases df <;>
    simp [handleConvert, herrs, controllerConvertTextToSpeech,
      serviceConvertTextToSpeech, jsToString]

/-- Witness for C1 at the spec's concrete scenario text. -/
theorem C1_witness :
    1 ≤ ("Hello, world!" : String).length ∧ ("Hello, world!" : String).length ≤ 500 ∧
    (handleConvert ⟨ProviderBehavior.succeed [1, 2], "u", "/tmp", false, false⟩
        (TextField.str "Hello, world!")).providerCalls =
      [⟨"tts-1-hd", "alloy", "Hello, world!"⟩] :=
  ⟨by decide, by decide,
    C1_valid_text_invokes_provider_once _ "Hello, world!" (by decide) (by decide)⟩

/-- C2: when the `text` field is missing, not a string, empty, or longer than
500 characters, the pipeline emits a single 400 response carrying the
accumulated validation errors and the synthesis capability is never
invoked. -/
theorem C2_invalid_input_rejected (env : Env) (tf : TextField)
    (h : tf = TextField.missing ∨ (∃ c, tf = TextField.nonString c) ∨
         tf = TextField.str "" ∨ (∃ s, tf = TextField.str s ∧ 500 < s.length)) :
    (handleConvert env tf).responses =
        [⟨400, ResponseBody.errorsJson (textToSpeechDto tf)⟩] ∧
      (handleConvert env tf).providerCalls = [] ∧
      textToSpeechDto tf ≠ [] := by
  have herrs : textToSpeechDto tf ≠ [] := by
    rcases h with h | ⟨c, h⟩ | h | ⟨s, h, hs⟩ <;> subst h
    · simp [textToSpeechDto, isStringField, jsToString]
    · simp [textToSpeechDto, isStringField]
    · simp [textToSpeechDto, isStringField, jsToString]
    · have h5 : ¬ s.length ≤ 500 := by omega
      simp [textToSpeechDto, isStringField, jsToString, h5]
  have hne : (textToSpeechDto tf).isEmpty = false := by
    cases hh : textToSpeechDto tf with
    | nil => exact absurd hh herrs
    | cons a l => rfl
  refine ⟨?_, ?_, herrs⟩ <;> simp [handleConvert, hne]

/-- Witness for C2 at a missing `text` field. -/
theorem C2_witness :
    (handleConvert ⟨ProviderBehavior.succeed [7], "u", "/tmp", false, false⟩
        TextField.missing).responses =
        [⟨400, ResponseBody.errorsJson (textToSpeechDto TextField.missing)⟩] ∧
      (handleConvert ⟨ProviderBehavior.succeed [7], "u", "/tmp", false, false⟩
        TextField.missing).providerCalls = [] ∧
      textToSpeechDto TextField.missing ≠ [] :=
  C2_invalid_input_rejected _ _ (Or.inl rfl)

/-- C3: whenever the service promise rejects (provider failure or write
failure), the controller answers with the single response
`500 \x7b error: 'Error converting text to audio' \x7d` and never attempts
`res.download`. -/
theorem C3_service_failure_500_no_download (env : Env) (text : String)
    (h : (serviceConvertTextToSpeech env text).result = Except.error ()) :
    (controllerConvertTextToSpeech env text).responses =
        [⟨500, ResponseBody.errorJson "Error converting text to audio"⟩] ∧
      (controllerConvertTextToSpeech env text).downloadCalls = [] := by
  obtain ⟨prov, uuid, tmp, wf, df⟩ := env
  cases prov <;> cases wf <;> cases df <;>
    simp_all [controllerConvertTextToSpeech, serviceConvertTextToSpeech]

/-- Witness for C3 at a failing provider. -/
theorem C3_witness :
    (serviceConvertTextToSpeech ⟨ProviderBehavior.fail, "u", "/tmp", false, false⟩
        "hi").result = Except.error () ∧
    (controllerConvertTextToSpeech ⟨ProviderBehavior.fail, "u", "/tmp", false, false⟩
        "hi").responses =
        [⟨500, ResponseBody.errorJson "Error converting text to audio"⟩] ∧
      (controllerConvertTextToSpeech ⟨ProviderBehavior.fail, "u", "/tmp", false, false⟩
        "hi").downloadCalls = [] :=
  ⟨rfl, C3_service_failure_500_no_download _ "hi" rfl⟩

/-- C4: on a successful provider call returning bytes `B` (write and send
succeeding, the uuid well formed), the service generates the name
`uuid ++ ".mp3"`, writes exactly `B` to that file under the temp directory,
resolves with that path, and the response downloads a file advertised under
that name and containing `B`. -/
theorem C4_success_download_artifact (env : Env) (text : String) (B : List Nat)
    (hp : env.provider = ProviderBehavior.succeed B)
    (hw : env.writeFails = false) (hd : env.downloadFails = false)
    (hu : uuidV4Format env.uuid = true) :
    generatedFileName env = env.uuid ++ ".mp3" ∧
    (serviceConvertTextToSpeech env text).result =
      Except.ok (env.tempDir ++ "/" ++ generatedFileName env) ∧
    (serviceConvertTextToSpeech env text).fileWrites =
      [(env.tempDir ++ "/" ++ generatedFileName env, B)] ∧
    (controllerConvertTextToSpeech env text).responses =
      [⟨200, ResponseBody.fileDownload (env.tempDir ++ "/" ++ generatedFileName env)
        (generatedFileName env) B⟩] := by
  obtain ⟨prov, uuid, tmp, wf, df⟩ := env
  simp only at hp hw hd hu
  subst hp hw hd
  have hfn : derivedFileName (tmp ++ "/" ++ (uuid ++ ".mp3")) = some (uuid ++ ".mp3") :=
    derivedFileName_join tmp (uuid ++ ".mp3") (mp3_no_slash uuid hu) (mp3_ne_empty uuid)
  refine ⟨rfl, ?_, ?_, ?_⟩
  · simp [serviceConvertTextToSpeech, generatedFileName]
  · simp [serviceConvertTextToSpeech, generatedFileName]
  · simp [controllerConvertTextToSpeech, serviceConvertTextToSpeech,
      generatedFileName, advertisedFileName, hfn, List.lookup]

/-- Witness for C4 at a concrete uuid and byte payload. -/
theorem C4_witness :
    (⟨ProviderBehavior.succeed [4, 0, 4], "123e4567-e89b-42d3-a456-426614174000",
        "/app/temp", false, false⟩ : Env).provider = ProviderBehavior.succeed [4, 0, 4] ∧
    uuidV4Format "123e4567-e89b-42d3-a456-426614174000" = true ∧
    (generatedFileName ⟨ProviderBehavior.succeed [4, 0, 4],
        "123e4567-e89b-42d3-a456-426614174000", "/app/temp", false, false⟩ =
      "123e4567-e89b-42d3-a456-426614174000" ++ ".mp3" ∧
    (serviceConvertTextToSpeech ⟨ProviderBehavior.succeed [4, 0, 4],
        "123e4567-e89b-42d3-a456-426614174000", "/app/temp", false, false⟩ "Hello, world!").result =
      Except.ok ("/app/temp" ++ "/" ++ generatedFileName ⟨ProviderBehavior.succeed [4, 0, 4],
        "123e4567-e89b-42d3-a456-426614174000", "/app/temp", false, false⟩) ∧
    (serviceConvertTextToSpeech ⟨ProviderBehavior.succeed [4, 0, 4],
        "123e4567-e89b-42d3-a456-426614174000", "/app/temp", false, false⟩ "Hello, world!").fileWrites =
      [("/app/temp" ++ "/" ++ generatedFileName ⟨ProviderBehavior.succeed [4, 0, 4],
        "123e4567-e89b-42d3-a456-426614174000", "/app/temp", false, false⟩, [4, 0, 4])] ∧
    (controllerConvertTextToSpeech ⟨ProviderBehavior.succeed [4, 0, 4],
        "123e4567-e89b-42d3-a456-426614174000", "/app/temp", false, false⟩ "Hello, world!").responses =
      [⟨200, ResponseBody.fileDownload ("/app/temp" ++ "/" ++ generatedFileName
          ⟨ProviderBehavior.succeed [4, 0, 4],
            "123e4567-e89b-42d3-a456-426614174000", "/app/temp", false, false⟩)
        (generatedFileName ⟨ProviderBehavior.succeed [4, 0, 4],
          "123e4567-e89b-42d3-a456-426614174000", "/app/temp", false, false⟩) [4, 0, 4]⟩]) :=
  ⟨rfl, by decide,
    C4_success_download_artifact _ "Hello, world!" [4, 0, 4] rfl rfl rfl (by decide)⟩

/-- C5: a failed validation yields one 400 response whose errors array is
the full accumulated list, and that list contains each rule's message
exactly when that rule is violated — every violated rule is enumerated,
not only the first. -/
theorem C5_validation_accumulates_all_errors (env : Env) (tf : TextField)
    (h : textToSpeechDto tf ≠ []) :
    (handleConvert env tf).responses =
        [⟨400, ResponseBody.errorsJson (textToSpeechDto tf)⟩] ∧
      (msgNotString ∈ textToSpeechDto tf ↔ isStringField tf = false) ∧
      (msgEmpty ∈ textToSpeechDto tf ↔ (jsToString tf).length = 0) ∧
      (msgTooLong ∈ textToSpeechDto tf ↔ 500 < (jsToString tf).length) := by
  have hne : (textToSpeechDto tf).isEmpty = false := by
    cases hh : textToSpeechDto tf with
    | nil => exact absurd hh h
    | cons a l => rfl
  refine ⟨by simp [handleConvert, hne], ?_, ?_, ?_⟩ <;>
    · unfold textToSpeechDto
      split_ifs <;>
        simp_all +decide [msgNotString, msgEmpty, msgTooLong] <;> omega

/-- Witness for C5 at a missing `text` field, where both the string rule and
the non-empty rule are violated and both messages appear. -/
theorem C5_witness :
    (handleConvert ⟨ProviderBehavior.fail, "u", "/tmp", false, false⟩
        TextField.missing).responses =
        [⟨400, ResponseBody.errorsJson (textToSpeechDto TextField.missing)⟩] ∧
      (msgNotString ∈ textToSpeechDto TextField.missing ↔
        isStringField TextField.missing = false) ∧
      (msgEmpty ∈ textToSpeechDto TextField.missing ↔
        (jsToString TextField.missing).length = 0) ∧
      (msgTooLong ∈ textToSpeechDto TextField.missing ↔
        500 < (jsToString TextField.missing).length) :=
  C5_validation_accumulates_all_errors _ _ (by decide)

/-- C6 counterexample: with a succeeding provider and a failing stream send,
the emitted response has the plain-text body
`'Error generating the audio file'`, which is not the JSON body
`\x7b error: 'Error converting text to audio' \x7d` the claim asserts. -/
theorem C6_counterexample :
    (handleConvert ⟨ProviderBehavior.succeed [1, 2, 3],
        "123e4567-e89b-42d3-a456-426614174000", "/app/temp", false, true⟩
        (TextField.str "hi")).responses =
      [⟨500, ResponseBody.textBody "Error generating the audio file"⟩] ∧
    (⟨500, ResponseBody.textBody "Error generating the audio file"⟩ : HttpResponse) ≠
      ⟨500, ResponseBody.errorJson "Error converting text to audio"⟩ := by
  refine ⟨rfl, by decide⟩

/-- C6 amended: when a valid request reaches a succeeding synthesis and
write but the stream send fails, the pipeline responds with a single 500
whose body is the plain text `'Error generating the audio file'` — a
different body from the JSON one used for synthesis failure. -/
theorem C6_amended_send_failure_text_body (env : Env) (s : String)
    (h1 : 1 ≤ s.length) (h2 : s.length ≤ 500)
    (hp : ∃ B, env.provider = ProviderBehavior.succeed B)
    (hw : env.writeFails = false) (hd : env.downloadFails = true) :
    (handleConvert env (TextField.str s)).responses =
        [⟨500, ResponseBody.textBody "Error generating the audio file"⟩] ∧
      (ResponseBody.textBody "Error generating the audio file" ≠
        ResponseBody.errorJson "Error converting text to audio") := by
  have herrs : textToSpeechDto (TextField.str s) = [] := by
    simp [textToSpeechDto, isStringField, jsToString, h1, h2]
  obtain ⟨B, hp⟩ := hp
  obtain ⟨prov, uuid, tmp, wf, df⟩ := env
  simp only at hp hw hd
  subst hp hw hd
  refine ⟨?_, by decide⟩
  simp [handleConvert, herrs, controllerConvertTextToSpeech,
    serviceConvertTextToSpeech, jsToString]

/-- Witness for the amended C6 at a concrete succeeding provider with a
failing send. -/
theorem C6_amended_witness :
    (handleConvert ⟨ProviderBehavior.succeed [9], "u", "/tmp", false, true⟩
        (TextField.str "hi")).responses =
        [⟨500, ResponseBody.textBody "Error generating the audio file"⟩] ∧
      (ResponseBody.textBody "Error generating the audio file" ≠
        ResponseBody.errorJson "Error converting text to audio") :=
  C6_amended_send_failure_text_body _ "hi" (by decide) (by decide)
    ⟨[9], rfl⟩ rfl rfl

/-- C7: for every path joined from the temp directory and a well-formed
`uuid ++ ".mp3"` name, the `split('/').pop()` derivation succeeds and yields
exactly that artifact name, so the `'output.mp3'` fallback is unreachable. -/
theorem C7_advertised_name_derivation (tempDir uuid : String)
    (hu : uuidV4Format uuid = true) :
    derivedFileName (tempDir ++ "/" ++ (uuid ++ ".mp3")) = some (uuid ++ ".mp3") ∧
    advertisedFileName (tempDir ++ "/" ++ (uuid ++ ".mp3")) = uuid ++ ".mp3" := by
  have h : derivedFileName (tempDir ++ "/" ++ (uuid ++ ".mp3")) = some (uuid ++ ".mp3") :=
    derivedFileName_join tempDir (uuid ++ ".mp3") (mp3_no_slash uuid hu) (mp3_ne_empty uuid)
  exact ⟨h, by simp [advertisedFileName, h]⟩

/-- Witness for C7 at a concrete temp directory and uuid. -/
theorem C7_witness :
    uuidV4Format "123e4567-e89b-42d3-a456-426614174000" = true ∧
    (derivedFileName ("/app/temp" ++ "/" ++ ("123e4567-e89b-42d3-a456-426614174000" ++ ".mp3")) =
        some ("123e4567-e89b-42d3-a456-426614174000" ++ ".mp3") ∧
      advertisedFileName ("/app/temp" ++ "/" ++ ("123e4567-e89b-42d3-a456-426614174000" ++ ".mp3")) =
        "123e4567-e89b-42d3-a456-426614174000" ++ ".mp3") :=
  ⟨by decide, C7_advertised_name_derivation "/app/temp" _ (by decide)⟩

/-- C8: the naming function `uuid ++ ".mp3"` is injective in the uuid: two
calls whose drawn uuids differ generate distinct file names. -/
theorem C8_distinct_uuids_distinct_names (env1 env2 : Env)
    (h : env1.uuid ≠ env2.uuid) :
    generatedFileName env1 ≠ generatedFileName env2 := by
  intro heq
  apply h
  have hdata : env1.uuid.data ++ (".mp3" : String).data =
      env2.uuid.data ++ (".mp3" : String).data := by
    have := congrArg String.data heq
    rwa [generatedFileName, generatedFileName, data_append, data_append] at this
  exact String.ext (List.append_cancel_right hdata)

/-- Witness for C8 at two concrete distinct uuids. -/
theorem C8_witness :
    (⟨ProviderBehavior.fail, "aaaa", "/tmp", false, false⟩ : Env).uuid ≠
      (⟨ProviderBehavior.fail, "bbbb", "/tmp", false, false⟩ : Env).uuid ∧
    generatedFileName ⟨ProviderBehavior.fail, "aaaa", "/tmp", false, false⟩ ≠
      generatedFileName ⟨ProviderBehavior.fail, "bbbb", "/tmp", false, false⟩ :=
  ⟨by decide, C8_distinct_uuids_distinct_names _ _ (by decide)⟩

/-- C9: every request emits exactly one HTTP response, which is a 400
validation body, a 200 file download, or a 500 error; every failure is
converted to a response inside the handler. -/
theorem C9_exactly_one_response (env : Env) (tf : TextField) :
    ∃ r : HttpResponse, (handleConvert env tf).responses = [r] ∧
      ((r.status = 400 ∧ ∃ errs, r.body = ResponseBody.errorsJson errs) ∨
       (r.status = 200 ∧ ∃ p n b, r.body = ResponseBody.fileDownload p n b) ∨
       r.status = 500) := by
  obtain ⟨prov, uuid, tmp, wf, df⟩ := env
  cases he : (textToSpeechDto tf).isEmpty with
  | false =>
    refine ⟨⟨400, ResponseBody.errorsJson (textToSpeechDto tf)⟩, ?_,
      Or.inl ⟨rfl, _, rfl⟩⟩
    simp [handleConvert, he]
  | true =>
    cases prov with
    | fail =>
      refine ⟨⟨500, ResponseBody.errorJson "Error converting text to audio"⟩, ?_,
        Or.inr (Or.inr rfl)⟩
      cases wf <;> cases df <;>
        simp [handleConvert, he, controllerConvertTextToSpeech,
          serviceConvertTextToSpeech]
    | succeed B =>
      cases wf with
      | true =>
        refine ⟨⟨500, ResponseBody.errorJson "Error converting text to audio"⟩, ?_,
          Or.inr (Or.inr rfl)⟩
        cases df <;>
          simp [handleConvert, he, controllerConvertTextToSpeech,
            serviceConvertTextToSpeech]
      | false =>
        cases df with
        | true =>
          refine ⟨⟨500, ResponseBody.textBody "Error generating the audio file"⟩, ?_,
            Or.inr (Or.inr rfl)⟩
          simp [handleConvert, he, controllerConvertTextToSpeech,
            serviceConvertTextToSpeech]
        | false =>
          refine ⟨⟨200, ResponseBody.fileDownload (tmp ++ "/" ++ (uuid ++ ".mp3"))
              (advertisedFileName (tmp ++ "/" ++ (uuid ++ ".mp3"))) B⟩,
            ?_, Or.inr (Or.inl ⟨rfl, _, _, _, rfl⟩)⟩
          simp [handleConvert, he, controllerConvertTextToSpeech,
            serviceConvertTextToSpeech, generatedFileName, List.lookup]

/-- C10: the service enforces no input constraint of its own: for every
string, including the empty string and strings longer than 500 characters,
it invokes the provider exactly once with that string. -/
theorem C10_service_enforces_no_constraints (env : Env) (text : String) :
    (serviceConvertTextToSpeech env text).providerCalls =
      [⟨"tts-1-hd", "alloy", text⟩] := by
  obtain ⟨prov, uuid, tmp, wf, df⟩ := env
  cases prov <;> cases wf <;> simp [serviceConvertTextToSpeech]

end TTS
